import Mathlib

/-!
Shallow embedding of the GarudaRush dashboard (src/app.py) reproducible
logic: the per-tick simulation/state-update step (app.py lines 170-222),
the simulated database insert `store_in_database` (lines 98-107), the
Reset Statistics handler (lines 381-389) and the Export Database handler
(lines 392-407).

Modelling conventions:
- `np.random.randint(lo, hi)` returns a value in `[lo, hi)`; it is embedded
  as `lo + draw % (hi - lo)` for an arbitrary natural `draw`, which realises
  exactly the possible outputs.
- `np.random.random()` returns a real in `[0, 1)`; the draw is embedded as
  an arbitrary fraction `alert_num / alert_den` given by two naturals, and
  the guard `np.random.random() > 0.85` becomes
  `100 * alert_num > 85 * alert_den`, the cross-multiplied form of
  `alert_num / alert_den > 85 / 100`.
- `np.random.choice(xs)` (also with weight vector `p`) is embedded as
  selection by an arbitrary index draw reduced mod the list length.
- `np.random.uniform(85, 99)` rounded to one decimal yields a real with one
  decimal digit in [85, 99]; it is embedded in tenths as the natural
  `850 + draw % 141` (the code's confidence is this value divided by 10).
- timestamps (`datetime.now()` formatted to a string) are abstracted as an
  opaque natural-number clock value carried in the draw bundle.
-/

namespace GarudaRush

/-- One entry of `st.session_state.traffic_data` (app.py lines 178-183). -/
structure TrafficSample where
  time : Nat
  normal : Nat
  suspicious : Nat
  attack : Nat
deriving DecidableEq

/-- One entry of `st.session_state.alerts` (app.py lines 207-215).
`confidence` is in tenths: the code's one-decimal value in [85, 99]
times 10. -/
structure Alert where
  id : Nat
  time : Nat
  type : String
  severity : String
  source : String
  destination : String
  confidence : Nat
deriving DecidableEq

/-- Payload of a database record: either the per-tick packet counts
(app.py lines 194-198) or a full alert (line 219). -/
inductive RecordData where
  | traffic (normal suspicious attack : Nat)
  | alert (a : Alert)
deriving DecidableEq

/-- One entry of `st.session_state.db_records` (app.py lines 100-105). -/
structure Record where
  id : Nat
  timestamp : Nat
  type : String
  data : RecordData
deriving DecidableEq

/-- `st.session_state.attack_distribution` (app.py lines 82-89): a mapping
with the five fixed keys, in insertion order SYN Flood, UDP Flood,
HTTP Flood, Slowloris, DNS Amplification. -/
structure AttackDistribution where
  synFlood : Nat
  udpFlood : Nat
  httpFlood : Nat
  slowloris : Nat
  dnsAmplification : Nat
deriving DecidableEq

/-- The all-zero distribution (initialization, and the value produced by
the reset comprehension `{k: 0 for k in ...}` at app.py line 387). -/
def AttackDistribution.zero : AttackDistribution := ⟨0, 0, 0, 0, 0⟩

/-- The key list of `attack_distribution`, by index (order of
`list(st.session_state.attack_distribution.keys())`, app.py line 203). -/
def attackTypeName : Nat → String
  | 0 => "SYN Flood"
  | 1 => "UDP Flood"
  | 2 => "HTTP Flood"
  | 3 => "Slowloris"
  | _ => "DNS Amplification"

/-- `st.session_state.attack_distribution[attack_type] += 1`
(app.py line 204), with the chosen key given by its index. -/
def AttackDistribution.incr (a : AttackDistribution) : Nat → AttackDistribution
  | 0 => { a with synFlood := a.synFlood + 1 }
  | 1 => { a with udpFlood := a.udpFlood + 1 }
  | 2 => { a with httpFlood := a.httpFlood + 1 }
  | 3 => { a with slowloris := a.slowloris + 1 }
  | _ => { a with dnsAmplification := a.dnsAmplification + 1 }

/-- Sum of the values of `attack_distribution` over its fixed key set
(`sum(st.session_state.attack_distribution.values())`, app.py line 419). -/
def AttackDistribution.total (a : AttackDistribution) : Nat :=
  a.synFlood + a.udpFlood + a.httpFlood + a.slowloris + a.dnsAmplification

/-- The `st.session_state` fields initialized at app.py lines 70-95. -/
structure SessionState where
  monitoring : Bool
  total_packets : Nat
  attacks_detected : Nat
  normal_traffic : Nat
  alerts : List Alert
  traffic_data : List TrafficSample
  attack_distribution : AttackDistribution
  db_records : List Record
  detection_threshold : ℚ
  update_interval : Nat
deriving DecidableEq

/-- The initial session state (app.py lines 70-95). -/
def initialState : SessionState where
  monitoring := false
  total_packets := 0
  attacks_detected := 0
  normal_traffic := 0
  alerts := []
  traffic_data := []
  attack_distribution := AttackDistribution.zero
  db_records := []
  detection_threshold := 85 / 100
  update_interval := 2

/-- All random draws one execution of the monitoring branch
(app.py lines 170-222) consumes, plus the abstract clock value. -/
structure TickDraws where
  time : Nat
  normal_draw : Nat
  suspicious_draw : Nat
  attack_draw : Nat
  alert_num : Nat
  alert_den : Nat
  attack_type_draw : Nat
  severity_draw : Nat
  src1_draw : Nat
  src2_draw : Nat
  src3_draw : Nat
  src4_draw : Nat
  dst_draw : Nat
  confidence_draw : Nat
deriving DecidableEq

/-- `np.random.randint(lo, hi)`: a value in `[lo, hi)` determined by the
draw. -/
def randint (lo hi draw : Nat) : Nat := lo + draw % (hi - lo)

/-- `store_in_database(record_type, data)` (app.py lines 98-107): builds
the record with `id = len(db_records) + 1` and the current timestamp,
appends it to `db_records`, and returns it. -/
def store_in_database (s : SessionState) (record_type : String)
    (data : RecordData) (now : Nat) : SessionState × Record :=
  let record : Record :=
    { id := s.db_records.length + 1
      timestamp := now
      type := record_type
      data := data }
  ({ s with db_records := s.db_records ++ [record] }, record)

/-- The traffic sample generated by one tick (app.py lines 171-183):
`normal = np.random.randint(50, 150)`, `suspicious = np.random.randint(0, 30)`,
`attack = np.random.randint(0, 20)`. -/
def tickSample (d : TickDraws) : TrafficSample :=
  { time := d.time
    normal := randint 50 150 d.normal_draw
    suspicious := randint 0 30 d.suspicious_draw
    attack := randint 0 20 d.attack_draw }

/-- `f"{np.random.randint(1,255)}.{...}.{...}.{...}"` (app.py line 212). -/
def mkSource (d : TickDraws) : String :=
  Nat.repr (randint 1 255 d.src1_draw) ++ "." ++
  Nat.repr (randint 1 255 d.src2_draw) ++ "." ++
  Nat.repr (randint 1 255 d.src3_draw) ++ "." ++
  Nat.repr (randint 1 255 d.src4_draw)

/-- `np.random.choice(['Critical', 'High', 'Medium'], p=[0.2, 0.5, 0.3])`
(app.py line 211), the choice given by its index. -/
def severityName : Nat → String
  | 0 => "Critical"
  | 1 => "High"
  | _ => "Medium"

/-- The alert dict built at app.py lines 207-215; `alertCount` is
`len(st.session_state.alerts)` at construction time. -/
def mkAlert (alertCount : Nat) (d : TickDraws) : Alert :=
  { id := alertCount + 1
    time := d.time
    type := attackTypeName (d.attack_type_draw % 5)
    severity := severityName (d.severity_draw % 3)
    source := mkSource d
    destination := "192.168.1." ++ Nat.repr (randint 1 255 d.dst_draw)
    confidence := 850 + d.confidence_draw % 141 }

/-- `np.random.random() > 0.85` (app.py line 201): the unit-interval draw
`alert_num / alert_den` exceeds 85/100, in cross-multiplied form. -/
def exceedsAlertBar (d : TickDraws) : Prop :=
  85 * d.alert_den < 100 * d.alert_num

instance (d : TickDraws) : Decidable (exceedsAlertBar d) :=
  inferInstanceAs (Decidable (85 * d.alert_den < 100 * d.alert_num))

/-- The alert a tick emits, if any: `if np.random.random() > 0.85`
(app.py line 201) guards construction of the alert dict. -/
def tickAlert (alertCount : Nat) (d : TickDraws) : Option Alert :=
  if exceedsAlertBar d then some (mkAlert alertCount d) else none

/-- One execution of the monitoring branch (app.py lines 170-222):
append the traffic sample, pop the oldest point when the window exceeds 30,
update `total_packets` and `normal_traffic`, store the traffic record, and
with probability-draw above 0.85 emit an alert: increment
`attacks_detected` and `attack_distribution[attack_type]`, insert the
alert at the front, store the alert record, and truncate the alert list
to 15. -/
def tick (s : SessionState) (d : TickDraws) : SessionState :=
  let sample := tickSample d
  let td0 := s.traffic_data ++ [sample]
  let td1 := if 30 < td0.length then td0.drop 1 else td0
  let s1 : SessionState :=
    { s with traffic_data := td1
             total_packets :=
               s.total_packets + (sample.normal + sample.suspicious + sample.attack)
             normal_traffic := s.normal_traffic + sample.normal }
  let s2 := (store_in_database s1 "traffic"
    (RecordData.traffic sample.normal sample.suspicious sample.attack) d.time).1
  match tickAlert s2.alerts.length d with
  | none => s2
  | some alert =>
    let s3 : SessionState :=
      { s2 with attacks_detected := s2.attacks_detected + 1
                attack_distribution :=
                  s2.attack_distribution.incr (d.attack_type_draw % 5) }
    let s4 : SessionState := { s3 with alerts := alert :: s3.alerts }
    let s5 := (store_in_database s4 "alert" (RecordData.alert alert) d.time).1
    { s5 with alerts := s5.alerts.take 15 }

/-- The Reset Statistics handler (app.py lines 381-389): zero the three
counters, empty `alerts` and `traffic_data`, zero `attack_distribution`.
Nothing else is touched. -/
def resetStatistics (s : SessionState) : SessionState :=
  { s with total_packets := 0
           attacks_detected := 0
           normal_traffic := 0
           alerts := []
           traffic_data := []
           attack_distribution := AttackDistribution.zero }

/-- The JSON export payload (app.py lines 394-398). -/
structure ExportData where
  export_time : Nat
  total_records : Nat
  records : List Record
deriving DecidableEq

/-- The Export Database handler (app.py lines 392-407): if `db_records`
is non-empty, produce the export payload; otherwise skip the export and
show a warning. -/
def exportDatabase (s : SessionState) (now : Nat) : Option ExportData :=
  if s.db_records.isEmpty then none
  else some
    { export_time := now
      total_records := s.db_records.length
      records := s.db_records }

/-- User-visible operations on the session state: toggling monitoring,
one execution of the monitoring branch, the Reset Statistics handler, and
the two settings sliders (app.py lines 352-375). -/
inductive Event where
  | setMonitoring (b : Bool)
  | tick (d : TickDraws)
  | reset
  | setThreshold (q : ℚ)
  | setInterval (n : Nat)
deriving DecidableEq

/-- Effect of one event on the session state. -/
def applyEvent (s : SessionState) : Event → SessionState
  | Event.setMonitoring b => { s with monitoring := b }
  | Event.tick d => tick s d
  | Event.reset => resetStatistics s
  | Event.setThreshold q => { s with detection_threshold := q }
  | Event.setInterval n => { s with update_interval := n }

/-- Run a sequence of events from a state. -/
def runEvents (s : SessionState) (es : List Event) : SessionState :=
  es.foldl applyEvent s

/-- Ghost trace data tracked alongside the state: counts and full
histories since the last reset. `emitted` is newest-first. -/
structure Ghost where
  ticks : Nat
  samples : List TrafficSample
  alerts_emitted : Nat
  emitted : List Alert
deriving DecidableEq

def Ghost.start : Ghost := ⟨0, [], 0, []⟩

/-- Ghost update for one event, driven by the pre-state `s`. -/
def ghostStep (s : SessionState) (g : Ghost) : Event → Ghost
  | Event.tick d =>
    { ticks := g.ticks + 1
      samples := g.samples ++ [tickSample d]
      alerts_emitted :=
        match tickAlert s.alerts.length d with
        | some _ => g.alerts_emitted + 1
        | none => g.alerts_emitted
      emitted :=
        match tickAlert s.alerts.length d with
        | some a => a :: g.emitted
        | none => g.emitted }
  | Event.reset => Ghost.start
  | _ => g

/-- Run events carrying both the state and the ghost data. -/
def runG (p : SessionState × Ghost) (es : List Event) : SessionState × Ghost :=
  es.foldl (fun p e => (applyEvent p.1 e, ghostStep p.1 p.2 e)) p

/-- Number of ticks executed since the last reset (0 resets at start). -/
def ticksSinceReset (es : List Event) : Nat :=
  (runG (initialState, Ghost.start) es).2.ticks

/-- Traffic samples generated since the last reset, oldest first. -/
def samplesSinceReset (es : List Event) : List TrafficSample :=
  (runG (initialState, Ghost.start) es).2.samples

/-- Number of alerts emitted since the last reset. -/
def alertsSinceReset (es : List Event) : Nat :=
  (runG (initialState, Ghost.start) es).2.alerts_emitted

/-- Alerts emitted since the last reset, newest first. -/
def emittedNewestFirst (es : List Event) : List Alert :=
  (runG (initialState, Ghost.start) es).2.emitted

/-! ### Derived closed forms of the tick, and ghost invariants -/

/-- The traffic window after one tick: append the new sample, pop the
oldest point when the window exceeds 30 entries. -/
def newWindow (td : List TrafficSample) (x : TrafficSample) : List TrafficSample :=
  if 30 < (td ++ [x]).length then (td ++ [x]).drop 1 else td ++ [x]

/-- The traffic record a tick stores (app.py lines 194-198). -/
def trafficRecord (s : SessionState) (d : TickDraws) : Record :=
  { id := s.db_records.length + 1
    timestamp := d.time
    type := "traffic"
    data := RecordData.traffic (tickSample d).normal (tickSample d).suspicious
      (tickSample d).attack }

/-- The alert record a tick stores when an alert fires (app.py line 219);
the traffic record has already been appended, so its id is `length + 2`. -/
def alertRecord (s : SessionState) (d : TickDraws) : Record :=
  { id := s.db_records.length + 2
    timestamp := d.time
    type := "alert"
    data := RecordData.alert (mkAlert s.alerts.length d) }

/-- Packet total contributed by one tick: `normal + suspicious + attack`. -/
def tickTotal (d : TickDraws) : Nat :=
  (tickSample d).normal + (tickSample d).suspicious + (tickSample d).attack

/-- The invariant connecting a session state with the ghost trace data. -/
def Inv (p : SessionState × Ghost) : Prop :=
  p.1.traffic_data.length = min p.2.ticks 30 ∧
  p.1.traffic_data <:+ p.2.samples ∧
  p.1.alerts = p.2.emitted.take 15 ∧
  p.2.emitted.length = p.2.alerts_emitted ∧
  p.1.attack_distribution.total = p.1.attacks_detected ∧
  p.1.db_records.map Record.id = List.range' 1 p.1.db_records.length

/-! ### Concrete inputs used in counterexamples and witnesses -/

/-- A draw bundle whose unit-interval draw is 0: no alert fires. -/
def quietDraws : TickDraws where
  time := 0
  normal_draw := 0
  suspicious_draw := 0
  attack_draw := 0
  alert_num := 0
  alert_den := 10
  attack_type_draw := 0
  severity_draw := 0
  src1_draw := 0
  src2_draw := 0
  src3_draw := 0
  src4_draw := 0
  dst_draw := 0
  confidence_draw := 0

/-- A draw bundle whose unit-interval draw is 9/10 = 0.9 and whose
attack-type draw selects "SYN Flood". -/
def synDraws : TickDraws where
  time := 7
  normal_draw := 3
  suspicious_draw := 4
  attack_draw := 5
  alert_num := 9
  alert_den := 10
  attack_type_draw := 0
  severity_draw := 1
  src1_draw := 10
  src2_draw := 20
  src3_draw := 30
  src4_draw := 40
  dst_draw := 50
  confidence_draw := 60

/-- A draw bundle whose unit-interval draw is 9/10: an alert fires. -/
def loudDraws : TickDraws where
  time := 1
  normal_draw := 0
  suspicious_draw := 0
  attack_draw := 0
  alert_num := 9
  alert_den := 10
  attack_type_draw := 2
  severity_draw := 0
  src1_draw := 0
  src2_draw := 0
  src3_draw := 0
  src4_draw := 0
  dst_draw := 0
  confidence_draw := 0

/-- An event trace of 15 alert-emitting ticks. -/
def saturatedTrace : List Event := List.replicate 15 (Event.tick loudDraws)

/-- A session state holding exactly one database record. -/
def oneRecordState : SessionState :=
  { initialState with db_records :=
      [{ id := 1, timestamp := 0, type := "traffic",
         data := RecordData.traffic 50 0 0 }] }

theorem tick_of_neg {d : TickDraws} (s : SessionState) (h : ¬ exceedsAlertBar d) :
    tick s d =
      { s with traffic_data := newWindow s.traffic_data (tickSample d)
               total_packets := s.total_packets +
                 ((tickSample d).normal + (tickSample d).suspicious + (tickSample d).attack)
               normal_traffic := s.normal_traffic + (tickSample d).normal
               db_records := s.db_records ++ [trafficRecord s d] } := by
  simp [tick, tickAlert, store_in_database, newWindow, trafficRecord, h]

theorem tick_of_pos {d : TickDraws} (s : SessionState) (h : exceedsAlertBar d) :
    tick s d =
      { s with traffic_data := newWindow s.traffic_data (tickSample d)
               total_packets := s.total_packets +
                 ((tickSample d).normal + (tickSample d).suspicious + (tickSample d).attack)
               normal_traffic := s.normal_traffic + (tickSample d).normal
               attacks_detected := s.attacks_detected + 1
               attack_distribution := s.attack_distribution.incr (d.attack_type_draw % 5)
               alerts := (mkAlert s.alerts.length d :: s.alerts).take 15
               db_records := s.db_records ++ [trafficRecord s d, alertRecord s d] } := by
  simp [tick, tickAlert, store_in_database, newWindow, trafficRecord, alertRecord, h]

/-! ### The reachable-state invariant, tracked with the ghost data -/

theorem incr_total (a : AttackDistribution) (i : Nat) :
    (a.incr i).total = a.total + 1 := by
  rcases i with _ | _ | _ | _ | i <;>
    simp [AttackDistribution.incr, AttackDistribution.total] <;> omega

theorem suffix_append_single {α : Type} {l l2 : List α} (h : l <:+ l2) (x : α) :
    l ++ [x] <:+ l2 ++ [x] := by
  obtain ⟨t, rfl⟩ := h
  exact ⟨t, (List.append_assoc t l [x]).symm⟩

theorem map_id_append_range (db : List Record) (r : Record)
    (hid : r.id = db.length + 1)
    (h : db.map Record.id = List.range' 1 db.length) :
    (db ++ [r]).map Record.id = List.range' 1 (db ++ [r]).length := by
  simp [h, hid, List.range'_concat, Nat.add_comm]

theorem inv_start : Inv (initialState, Ghost.start) := by
  refine ⟨rfl, ⟨[], rfl⟩, rfl, rfl, rfl, rfl⟩

theorem inv_step {s : SessionState} {g : Ghost} (e : Event)
    (h : Inv (s, g)) : Inv (applyEvent s e, ghostStep s g e) := by
  obtain ⟨h1, h2, h3, h4, h5, h6⟩ := h
  dsimp only at h1 h2 h3 h4 h5 h6
  cases e with
  | setMonitoring b => exact ⟨h1, h2, h3, h4, h5, h6⟩
  | setThreshold q => exact ⟨h1, h2, h3, h4, h5, h6⟩
  | setInterval n => exact ⟨h1, h2, h3, h4, h5, h6⟩
  | reset =>
    exact ⟨rfl, ⟨[], rfl⟩, rfl, rfl, rfl, h6⟩
  | tick d =>
    have hwin_len : (newWindow s.traffic_data (tickSample d)).length =
        min (g.ticks + 1) 30 := by
      unfold newWindow
      split <;> simp_all <;> omega
    have hwin_suffix : newWindow s.traffic_data (tickSample d) <:+
        g.samples ++ [tickSample d] := by
      unfold newWindow
      split
      · exact List.IsSuffix.trans (List.drop_suffix 1 _)
          (suffix_append_single h2 _)
      · exact suffix_append_single h2 _
    have hdb2 : (s.db_records ++ [trafficRecord s d]).map Record.id =
        List.range' 1 (s.db_records ++ [trafficRecord s d]).length :=
      map_id_append_range _ _ rfl h6
    by_cases hx : exceedsAlertBar d
    · rw [applyEvent, tick_of_pos s hx]
      refine ⟨hwin_len, hwin_suffix, ?_, ?_, ?_, ?_⟩
      · simp only [ghostStep, tickAlert, if_pos hx, h3]
        simp [List.take_take]
      · simp [ghostStep, tickAlert, if_pos hx, h4]
      · simp [incr_total, h5]
      · have : (alertRecord s d).id = (s.db_records ++ [trafficRecord s d]).length + 1 := by
          simp [alertRecord, trafficRecord]
        have := map_id_append_range _ _ this hdb2
        simpa [List.append_assoc] using this
    · rw [applyEvent, tick_of_neg s hx]
      refine ⟨hwin_len, hwin_suffix, ?_, ?_, h5, hdb2⟩
      · simp [ghostStep, tickAlert, if_neg hx, h3]
      · simp [ghostStep, tickAlert, if_neg hx, h4]

theorem inv_run (es : List Event) :
    ∀ p : SessionState × Ghost, Inv p → Inv (runG p es) := by
  induction es with
  | nil => intro p h; exact h
  | cons e es ih =>
    intro p h
    exact ih _ (inv_step e h)

theorem runG_fst (es : List Event) :
    ∀ p : SessionState × Ghost, (runG p es).1 = runEvents p.1 es := by
  induction es with
  | nil => intro p; rfl
  | cons e es ih =>
    intro p
    exact ih (applyEvent p.1 e, ghostStep p.1 p.2 e)

theorem inv_reachable (es : List Event) :
    Inv (runEvents initialState es, (runG (initialState, Ghost.start) es).2) := by
  have h := inv_run es (initialState, Ghost.start) inv_start
  have hf := runG_fst es (initialState, Ghost.start)
  rw [show (runG (initialState, Ghost.start) es) =
    ((runG (initialState, Ghost.start) es).1, (runG (initialState, Ghost.start) es).2) from rfl,
    hf] at h
  exact h

/-! ### Further tick facts -/

theorem tick_total_packets (s : SessionState) (d : TickDraws) :
    (tick s d).total_packets = s.total_packets + tickTotal d := by
  by_cases hx : exceedsAlertBar d
  · rw [tick_of_pos s hx]; rfl
  · rw [tick_of_neg s hx]; rfl

theorem tick_traffic_data (s : SessionState) (d : TickDraws) :
    (tick s d).traffic_data = newWindow s.traffic_data (tickSample d) := by
  by_cases hx : exceedsAlertBar d
  · rw [tick_of_pos s hx]
  · rw [tick_of_neg s hx]

theorem newWindow_getLast (td : List TrafficSample) (x : TrafficSample) :
    (newWindow td x).getLast? = some x := by
  unfold newWindow
  split
  · rename_i h
    rcases td with _ | ⟨y, t⟩
    · simp at h
    · simp
  · simp

theorem randint_lower (lo hi n : Nat) : lo ≤ randint lo hi n :=
  Nat.le_add_right lo (n % (hi - lo))

theorem randint_upper (lo hi n : Nat) (h : lo < hi) : randint lo hi n < hi := by
  have := Nat.mod_lt n (show 0 < hi - lo by omega)
  unfold randint
  omega

theorem tickTotal_pos (d : TickDraws) : 0 < tickTotal d := by
  have := randint_lower 50 150 d.normal_draw
  unfold tickTotal tickSample
  dsimp
  omega

theorem run_ticks_total (ds : List TickDraws) :
    ∀ s : SessionState,
      (runEvents s (ds.map Event.tick)).total_packets =
        s.total_packets + (ds.map tickTotal).sum := by
  induction ds with
  | nil => intro s; simp [runEvents]
  | cons d ds ih =>
    intro s
    simp only [List.map_cons, runEvents, List.foldl_cons]
    rw [show (ds.map Event.tick).foldl applyEvent (applyEvent s (Event.tick d)) =
      runEvents (applyEvent s (Event.tick d)) (ds.map Event.tick) from rfl, ih]
    simp [applyEvent, tick_total_packets]
    omega

theorem alerts_length_reachable (es : List Event) :
    (runEvents initialState es).alerts.length = min (alertsSinceReset es) 15 := by
  obtain ⟨-, -, h3, h4, -, -⟩ := inv_reachable es
  dsimp only at h3 h4
  rw [h3, List.length_take, h4]
  exact Nat.min_comm 15 _

/-! ### Claims -/

/-- C1, counterexample. The Reset Statistics handler does not empty the
record store: after one monitored tick (which stores one traffic record)
followed by a reset, `db_records` is still non-empty. -/
theorem reset_keeps_db_records :
    (resetStatistics (runEvents initialState [Event.tick quietDraws])).db_records ≠ [] := by
  decide

/-- C1, amended. The Reset Statistics handler sets `total_packets`,
`attacks_detected` and `normal_traffic` to 0, empties the traffic window
and the alert list, and zeroes `attack_distribution`, but leaves the
`db_records` sequence (and the monitoring flag and both settings)
unchanged. -/
theorem reset_statistics_spec (s : SessionState) :
    (resetStatistics s).total_packets = 0 ∧
    (resetStatistics s).attacks_detected = 0 ∧
    (resetStatistics s).normal_traffic = 0 ∧
    (resetStatistics s).traffic_data = [] ∧
    (resetStatistics s).alerts = [] ∧
    (resetStatistics s).attack_distribution = AttackDistribution.zero ∧
    (resetStatistics s).db_records = s.db_records ∧
    (resetStatistics s).monitoring = s.monitoring ∧
    (resetStatistics s).detection_threshold = s.detection_threshold ∧
    (resetStatistics s).update_interval = s.update_interval :=
  ⟨rfl, rfl, rfl, rfl, rfl, rfl, rfl, rfl, rfl, rfl⟩

/-- C2, counterexample. At a concrete input, the complete effect of
`store_in_database` on the program state is the single append to
`db_records`: every other session-state component is unchanged, so no
operation-log entry of any form is appended anywhere. -/
theorem insert_appends_no_oplog :
    (store_in_database initialState "traffic" (RecordData.traffic 50 0 0) 0).1 =
      { initialState with db_records :=
          [{ id := 1, timestamp := 0, type := "traffic",
             data := RecordData.traffic 50 0 0 }] } := rfl

/-- C2, amended. `store_in_database` appends a Record carrying the next
identifier (`len(db_records) + 1`, so the stored identifiers of every
reachable state are exactly 1, 2, ..., n) and the current timestamp, and
changes nothing else in the program state; in particular no operation-log
entry is appended, as no operation log exists. -/
theorem store_in_database_spec :
    (∀ (s : SessionState) (ty : String) (p : RecordData) (t : Nat),
      (store_in_database s ty p t).2.id = s.db_records.length + 1 ∧
      (store_in_database s ty p t).2.timestamp = t ∧
      (store_in_database s ty p t).2.type = ty ∧
      (store_in_database s ty p t).2.data = p ∧
      (store_in_database s ty p t).1 =
        { s with db_records := s.db_records ++ [(store_in_database s ty p t).2] }) ∧
    (∀ es : List Event,
      (runEvents initialState es).db_records.map Record.id =
        List.range' 1 (runEvents initialState es).db_records.length) := by
  refine ⟨fun s ty p t => ⟨rfl, rfl, rfl, rfl, rfl⟩, fun es => ?_⟩
  obtain ⟨-, -, -, -, -, h6⟩ := inv_reachable es
  exact h6

/-- C4. Every tick appends to the traffic window a sample with
`normal ∈ [50, 150)`, `suspicious ∈ [0, 30)` and `attack ∈ [0, 20)`,
whatever the draws were. -/
theorem tick_sample_bounds (s : SessionState) (d : TickDraws) :
    (tick s d).traffic_data.getLast? = some (tickSample d) ∧
    50 ≤ (tickSample d).normal ∧ (tickSample d).normal < 150 ∧
    (tickSample d).suspicious < 30 ∧ (tickSample d).attack < 20 := by
  refine ⟨?_, ?_, ?_, ?_, ?_⟩
  · rw [tick_traffic_data]; exact newWindow_getLast _ _
  · exact randint_lower 50 150 d.normal_draw
  · exact randint_upper 50 150 d.normal_draw (by omega)
  · exact randint_upper 0 30 d.suspicious_draw (by omega)
  · exact randint_upper 0 20 d.attack_draw (by omega)

/-- C6. In every reachable state — after any interleaving of ticks,
resets, monitoring toggles and settings changes — the values of
`attack_distribution` over its fixed key set sum to `attacks_detected`. -/
theorem attack_distribution_total (es : List Event) :
    (runEvents initialState es).attack_distribution.total =
      (runEvents initialState es).attacks_detected := by
  obtain ⟨-, -, -, -, h5, -⟩ := inv_reachable es
  exact h5

/-- C7. In every reachable state the traffic window holds exactly
`min(ticks since reset, 30)` samples and is a suffix of (i.e. the most
recent entries of) the since-reset sample sequence, and the alert list is
exactly the 15 most recent alerts emitted since reset, newest first, so
its length is `min(alerts emitted since reset, 15)`. -/
theorem window_and_alert_caps (es : List Event) :
    (runEvents initialState es).traffic_data.length =
      min (ticksSinceReset es) 30 ∧
    (runEvents initialState es).traffic_data <:+ samplesSinceReset es ∧
    (runEvents initialState es).alerts = (emittedNewestFirst es).take 15 ∧
    (runEvents initialState es).alerts.length =
      min (alertsSinceReset es) 15 := by
  obtain ⟨h1, h2, h3, h4, -, -⟩ := inv_reachable es
  dsimp only at h1 h2 h3 h4
  refine ⟨h1, h2, h3, ?_⟩
  rw [h3, List.length_take, h4]
  exact Nat.min_comm 15 _

/-- C10. The `detection_threshold` setting has no influence on the tick:
running the tick from a state whose threshold was overwritten with any
value gives the same traffic sample, counter updates, alert emission and
record stores, with only the threshold field differing; and the alert
emission itself never reads the threshold. -/
theorem threshold_noninterference (s : SessionState) (q : ℚ) (d : TickDraws) :
    tick { s with detection_threshold := q } d =
      { tick s d with detection_threshold := q } ∧
    tickAlert ({ s with detection_threshold := q } :
      SessionState).alerts.length d = tickAlert s.alerts.length d := by
  refine ⟨?_, rfl⟩
  by_cases hx : exceedsAlertBar d
  · rw [tick_of_pos _ hx, tick_of_pos s hx]; rfl
  · rw [tick_of_neg _ hx, tick_of_neg s hx]; rfl

/-- C3. If the unit-interval draw is 9/10 = 0.9 and the attack-type draw
selects "SYN Flood", then the tick emits exactly one alert, its type is
"SYN Flood", it is the one alert inserted at the front of the alert list,
and `attacks_detected` grows by exactly 1. -/
theorem syn_flood_alert_step (s : SessionState) (d : TickDraws)
    (hn : d.alert_num = 9) (hd : d.alert_den = 10)
    (ht : attackTypeName (d.attack_type_draw % 5) = "SYN Flood") :
    ∃ a : Alert,
      tickAlert s.alerts.length d = some a ∧
      a.type = "SYN Flood" ∧
      (tick s d).alerts = (a :: s.alerts).take 15 ∧
      (tick s d).attacks_detected = s.attacks_detected + 1 := by
  have hx : exceedsAlertBar d := by
    unfold exceedsAlertBar
    rw [hn, hd]
    norm_num
  refine ⟨mkAlert s.alerts.length d, ?_, ?_, ?_, ?_⟩
  · simp [tickAlert, hx]
  · simp [mkAlert, ht]
  · rw [tick_of_pos s hx]
  · rw [tick_of_pos s hx]

/-- C3, witness: the theorem instantiated at the initial state and the
concrete draw bundle `synDraws`. -/
theorem syn_flood_alert_step_witness :
    synDraws.alert_num = 9 ∧ synDraws.alert_den = 10 ∧
    attackTypeName (synDraws.attack_type_draw % 5) = "SYN Flood" ∧
    ∃ a : Alert,
      tickAlert initialState.alerts.length synDraws = some a ∧
      a.type = "SYN Flood" ∧
      (tick initialState synDraws).alerts = (a :: initialState.alerts).take 15 ∧
      (tick initialState synDraws).attacks_detected =
        initialState.attacks_detected + 1 :=
  ⟨rfl, rfl, rfl, syn_flood_alert_step initialState synDraws rfl rfl rfl⟩

/-- C5. From the initial state, and equally from any freshly reset state,
`total_packets` after a sequence of ticks equals the sum of
`normal + suspicious + attack` over those ticks; and no event other than
an explicit reset can take `total_packets` (back) to 0: if it is 0 after
a non-reset event it was already 0 before. -/
theorem total_packets_accounting :
    (∀ ds : List TickDraws,
      (runEvents initialState (ds.map Event.tick)).total_packets =
        (ds.map tickTotal).sum) ∧
    (∀ (s : SessionState) (ds : List TickDraws),
      (runEvents (resetStatistics s) (ds.map Event.tick)).total_packets =
        (ds.map tickTotal).sum) ∧
    (∀ (s : SessionState) (e : Event), e ≠ Event.reset →
      (applyEvent s e).total_packets = 0 → s.total_packets = 0) := by
  refine ⟨fun ds => by rw [run_ticks_total]; simp [initialState],
    fun s ds => by rw [run_ticks_total]; simp [resetStatistics],
    fun s e hne h0 => ?_⟩
  cases e with
  | tick d =>
    rw [applyEvent, tick_total_packets] at h0
    omega
  | reset => exact absurd rfl hne
  | setMonitoring b => exact h0
  | setThreshold q => exact h0
  | setInterval n => exact h0

/-- C5, witness: the non-reset part of the theorem instantiated at the
initial state and a settings event. -/
theorem total_packets_accounting_witness :
    Event.setInterval 3 ≠ Event.reset ∧
    (applyEvent initialState (Event.setInterval 3)).total_packets = 0 ∧
    initialState.total_packets = 0 :=
  ⟨by decide, rfl,
    total_packets_accounting.2.2 initialState (Event.setInterval 3) (by decide) rfl⟩

/-- C8. The export is skipped (returns nothing) exactly when the record
store is empty; whenever it produces a payload, the payload carries the
export time, the exact record count and the full record list. -/
theorem export_behavior (s : SessionState) (now : Nat) :
    (exportDatabase s now = none ↔ s.db_records = []) ∧
    ∀ ed : ExportData, exportDatabase s now = some ed →
      ed.export_time = now ∧ ed.total_records = s.db_records.length ∧
      ed.records = s.db_records := by
  by_cases hemp : s.db_records = []
  · refine ⟨by simp [exportDatabase, hemp], fun ed hed => ?_⟩
    simp [exportDatabase, hemp] at hed
  · refine ⟨by simp [exportDatabase, List.isEmpty_iff, hemp], fun ed hed => ?_⟩
    simp [exportDatabase, List.isEmpty_iff, hemp] at hed
    subst hed
    exact ⟨rfl, rfl, rfl⟩

/-- C8, witness: the theorem instantiated at a one-record state. -/
theorem export_behavior_witness :
    exportDatabase oneRecordState 5 =
      some { export_time := 5, total_records := 1,
             records := oneRecordState.db_records } ∧
    ({ export_time := 5, total_records := 1,
       records := oneRecordState.db_records } : ExportData).export_time = 5 ∧
    ({ export_time := 5, total_records := 1,
       records := oneRecordState.db_records } : ExportData).total_records =
      oneRecordState.db_records.length ∧
    ({ export_time := 5, total_records := 1,
       records := oneRecordState.db_records } : ExportData).records =
      oneRecordState.db_records :=
  ⟨rfl, (export_behavior oneRecordState 5).2 _ rfl⟩

/-- C9. Alert identifiers saturate: the id of an emitted alert is assigned
as the current alert-list length plus one before insertion, and the list
is capped at 15, so once 15 or more alerts have been emitted since the
last reset every further emitted alert receives id 16. -/
theorem alert_id_saturates_at_16 (es : List Event) (d : TickDraws) (a : Alert)
    (h15 : 15 ≤ alertsSinceReset es)
    (he : tickAlert (runEvents initialState es).alerts.length d = some a) :
    a.id = 16 := by
  have hlen := alerts_length_reachable es
  have h15eq : (runEvents initialState es).alerts.length = 15 := by omega
  rw [h15eq] at he
  unfold tickAlert at he
  split at he
  · cases he
    rfl
  · cases he

/-- C9, witness: after a trace of 15 alert-emitting ticks, a further
emitted alert gets id 16. -/
theorem alert_id_saturates_at_16_witness :
    15 ≤ alertsSinceReset saturatedTrace ∧
    tickAlert (runEvents initialState saturatedTrace).alerts.length loudDraws =
      some (mkAlert 15 loudDraws) ∧
    (mkAlert 15 loudDraws).id = 16 :=
  ⟨by decide, by decide,
    alert_id_saturates_at_16 saturatedTrace loudDraws (mkAlert 15 loudDraws)
      (by decide) (by decide)⟩

end GarudaRush
